import Mathlib

/-!
Verification development for the fief-js OIDC client and its Next.js /
React adapters.

The repository's `src/` tree contains the React provider (with the auth
storage reducer), the Next.js adapter (`FiefAuth.withAuth`,
`FiefAuth.authenticated`) and the client test-suite; the `Fief` client
itself (`getAuthURL`, `authCallback`, `validateAccessToken`) and the
server-side request authenticator live outside the provided sources, so
those operations are modelled from the specification (§4.2–§4.4) and
marked as such in their doc comments.  Everything taken from a present
source file is embedded directly.
-/

namespace Fief

/-- ACR levels, as the `FiefACR` enumeration of the client:
LEVEL_ZERO, LEVEL_ONE, LEVEL_TWO. -/
inductive FiefACR where
  | LEVEL_ZERO
  | LEVEL_ONE
  | LEVEL_TWO
deriving DecidableEq, Repr

/-- Modelled from the spec: «totally ordered enumeration
{LEVEL_ZERO < LEVEL_ONE < LEVEL_TWO}» — the ordinal rank of an ACR level. -/
def acrLevel : FiefACR → Nat
  | .LEVEL_ZERO => 0
  | .LEVEL_ONE => 1
  | .LEVEL_TWO => 2

/-- Modelled from the spec: «a requirement is satisfied iff the token's
level is ≥ the required level». -/
def acrSatisfies (tokenACR requiredACR : FiefACR) : Bool :=
  acrLevel requiredACR ≤ acrLevel tokenACR

/-- Claims carried by a (decoded) access token: subject, the `scope`
claim as its raw space-separated string, the ACR level, the granted
permissions and the expiry timestamp. -/
structure AccessTokenClaims where
  sub : String
  scope : String
  acr : FiefACR
  permissions : List String
  exp : Int
deriving DecidableEq, Repr

/-- An access token as seen by the verifier: whether its structure
parses, whether its signature verifies against the provider's keys
(cryptography is a trusted external capability, so both are abstract
booleans), and the claims its payload decodes to. -/
structure FiefAccessToken where
  wellFormed : Bool
  signatureValid : Bool
  claims : AccessTokenClaims
deriving DecidableEq, Repr

/-- The `FiefAccessTokenInfo` projection returned by
`validateAccessToken`: subject id, scope as an ordered list, ACR,
permissions, and the raw access token. -/
structure FiefAccessTokenInfo where
  id : String
  scope : List String
  acr : FiefACR
  permissions : List String
  access_token : FiefAccessToken
deriving DecidableEq, Repr

/-- The distinct error kinds of access-token validation
(`FiefAccessTokenInvalid`, `FiefAccessTokenExpired`,
`FiefAccessTokenMissingScope`, `FiefAccessTokenACRTooLow`,
`FiefAccessTokenMissingPermission`). -/
inductive FiefAccessTokenError where
  | invalid
  | expired
  | missingScope
  | acrTooLow
  | missingPermission
deriving DecidableEq, Repr

/-- Splitting a character list on spaces, accumulating the current
chunk in reverse. -/
def splitOnSpacesAux : List Char → List Char → List String
  | [], current => [String.mk current.reverse]
  | c :: rest, current =>
    if c = ' ' then String.mk current.reverse :: splitOnSpacesAux rest []
    else splitOnSpacesAux rest (c :: current)

/-- The scope list declared by a token: its space-separated `scope`
claim split on spaces, in the claim's order. -/
def scopeList (scope : String) : List String :=
  splitOnSpacesAux scope.data []

/-- Modelled from the spec: `validateAccessToken` (§4.3) — the client's
`validateAccessToken` is not among the provided sources (only its tests
are).  «runs 4.2's access-token verification, then enforces, in this
order, fatal-on-first-failure: (1) structural/signature validity,
(2) not expired, (3) every entry of `requiredScope` present in the
token's scope, (4) token ACR ≥ `requiredACR`, (5) every entry of
`requiredPermissions` present in the token's permissions», expiry being
strict («expiry equal to or before current time fails»).  The returned
scope lists the token's scopes in the token's declared order. -/
def validateAccessToken (token : FiefAccessToken) (now : Int)
    (requiredScope : Option (List String) := none)
    (requiredACR : Option FiefACR := none)
    (requiredPermissions : Option (List String) := none) :
    Except FiefAccessTokenError FiefAccessTokenInfo :=
  if ¬ (token.wellFormed && token.signatureValid) then .error .invalid
  else if token.claims.exp ≤ now then .error .expired
  else
    let tokenScopes := scopeList token.claims.scope
    if ¬ (requiredScope.getD []).all (fun s => tokenScopes.contains s) then
      .error .missingScope
    else if ¬ (requiredACR.all (fun req => acrSatisfies token.claims.acr req)) then
      .error .acrTooLow
    else if ¬ (requiredPermissions.getD []).all
               (fun p => token.claims.permissions.contains p) then
      .error .missingPermission
    else
      .ok {
        id := token.claims.sub
        scope := tokenScopes
        acr := token.claims.acr
        permissions := token.claims.permissions
        access_token := token
      }

/-- ID-token claims: subject, issuer, expiry, and the optional
`at_hash` / `c_hash` binding claims. -/
structure IdTokenClaims where
  sub : String
  iss : String
  exp : Int
  at_hash : Option String := none
  c_hash : Option String := none
deriving DecidableEq, Repr

/-- A signed ID token as seen by the verifier: structural parse and
signature verification are abstract booleans (cryptography is a trusted
external capability), together with the decoded claims. -/
structure SignedIdToken where
  wellFormed : Bool
  signatureValid : Bool
  claims : IdTokenClaims
deriving DecidableEq, Repr

/-- A raw ID token: either a plain signed token or a signed token nested
in an encryption envelope; the envelope records the key that encrypted
it. -/
inductive RawIdToken where
  | signed (token : SignedIdToken)
  | encrypted (encKey : Nat) (inner : SignedIdToken)
deriving DecidableEq, Repr

/-- Modelled from the spec: decryption step of `verifyIdToken` (§4.2) —
«if the raw token is an encryption envelope, decrypts it first using the
configured decryption key (absence of a configured key when the token is
encrypted is an invalid-token error, not a silent pass-through)».
Returns the signed token on success, `none` on any decryption failure. -/
def decryptIdToken (raw : RawIdToken) (decryptionKey : Option Nat) :
    Option SignedIdToken :=
  match raw with
  | .signed t => some t
  | .encrypted k inner =>
    match decryptionKey with
    | none => none
    | some k2 => if k2 = k then some inner else none

/-- Modelled from the spec: `verifyIdToken` (§4.2) — after the optional
decryption, «verifies the signature against `keys` using the key-id in
the token header, checks issuer and expiry; returns claims on success».
Every failure is the single `IdTokenInvalid` kind (§7), modelled as
`none`. -/
def verifyIdToken (raw : RawIdToken) (decryptionKey : Option Nat)
    (issuer : String) (now : Int) : Option IdTokenClaims :=
  match decryptIdToken raw decryptionKey with
  | none => none
  | some t =>
    if ¬ (t.wellFormed && t.signatureValid) then none
    else if t.claims.iss ≠ issuer then none
    else if t.claims.exp ≤ now then none
    else some t.claims

/-- Modelled from the spec: the «provider-specified one-way
hash-and-truncate digest» used for `at_hash` / `c_hash` binding (§4.2).
The digest is a trusted external crypto capability (non-goal: «cryptographic
primitives are treated as a trusted external capability»), so it is
modelled as an abstract injective digest function. -/
def getValidationHash (value : String) : String :=
  "vh:" ++ value

/-- Modelled from the spec: `checkHashBinding` (§4.2) — computes the
digest of the reference value and compares it to the claim; «Absence of
the claim is not an error (binding is optional per flow); presence with
mismatch is always a validation failure». -/
def checkHashBinding (claim : Option String) (referenceValue : String) : Bool :=
  match claim with
  | none => true
  | some h => h == getValidationHash referenceValue

/-- A token-endpoint response: the raw access token string, the raw ID
token, and expires-in. -/
structure TokenResponse where
  access_token : String
  id_token : RawIdToken
  expires_in : Int := 3600
deriving DecidableEq, Repr

/-- Error kinds of the code-exchange flow: the provider rejected the
request (`FiefRequestError`) or it issued an ID token that failed
validation (`FiefIdTokenInvalid`). -/
inductive AuthCallbackError where
  | requestError
  | idTokenInvalid
deriving DecidableEq, Repr

/-- Modelled from the spec: `exchangeCodeForTokens` / `authCallback`
(§4.3), with the token-endpoint exchange already performed — «on success
validates the returned ID token (4.2) and returns both the raw token
response and the decoded subject profile», the `c_hash` claim binding the
authorization code and the `at_hash` claim binding the access token
(§4.2); «any ID-token validation failure is an invalid-token error». -/
def authCallback (code : String) (response : TokenResponse)
    (decryptionKey : Option Nat) (issuer : String) (now : Int) :
    Except AuthCallbackError (TokenResponse × IdTokenClaims) :=
  match verifyIdToken response.id_token decryptionKey issuer now with
  | none => .error .idTokenInvalid
  | some claims =>
    if ¬ checkHashBinding claims.c_hash code then .error .idTokenInvalid
    else if ¬ checkHashBinding claims.at_hash response.access_token then
      .error .idTokenInvalid
    else .ok (response, claims)

/-- Uppercase hexadecimal digit for a value below 16. -/
def hexDigit (n : Nat) : Char :=
  if n < 10 then Char.ofNat (48 + n) else Char.ofNat (55 + n)

/-- Percent-encoding of one byte: `%XX` with uppercase hex. -/
def percentEncodeByte (n : Nat) : String :=
  "%" ++ String.singleton (hexDigit (n / 16 % 16)) ++ String.singleton (hexDigit (n % 16))

/-- `application/x-www-form-urlencoded` encoding of one character, as
`URLSearchParams` serialises query values: ASCII alphanumerics and
`*`, `-`, `.`, `_` kept, space encoded as `+`, every other character
percent-encoded byte-wise from its UTF-8 encoding. -/
def formEncodeChar (c : Char) : String :=
  if c = ' ' then "+"
  else if c.isAlphanum || c = '*' || c = '-' || c = '.' || c = '_' then
    String.singleton c
  else
    String.join ((String.utf8EncodeChar c).map (fun b => percentEncodeByte b.toNat))

/-- `application/x-www-form-urlencoded` encoding of a string value. -/
def formEncode (s : String) : String :=
  String.join (s.data.map formEncodeChar)

/-- One `key=value` query chunk with its value form-encoded. -/
def queryChunk (kv : String × String) : String :=
  kv.1 ++ "=" ++ formEncode kv.2

/-- Serialisation of the query parameters after the first:
`&k=v` for each, in order. -/
def serializeQueryTail : List (String × String) → String
  | [] => ""
  | kv :: rest => "&" ++ queryChunk kv ++ serializeQueryTail rest

/-- Serialisation of an ordered list of query parameters:
`k1=v1&k2=v2&…` with each value form-encoded. -/
def serializeQuery : List (String × String) → String
  | [] => ""
  | kv :: rest => queryChunk kv ++ serializeQueryTail rest

/-- Parameters accepted by `getAuthURL` besides the redirect URI. -/
structure AuthURLParams where
  state : Option String := none
  scope : Option (List String) := none
  codeChallenge : Option (String × String) := none
  lang : Option String := none
  extrasParams : List (String × String) := []
deriving DecidableEq, Repr

/-- Modelled from the spec: the query-parameter list of
`buildAuthorizationURL` / `getAuthURL` (§4.3) — the client's `getAuthURL`
is not among the provided sources (only its tests are).  «deterministic
query construction: `response_type=code&client_id=<id>&redirect_uri=<urlencoded>`
followed, only if present, by `&state=`, `&scope=<space-joined-urlencoded>`,
`&code_challenge=` + `&code_challenge_method=`, `&lang=`, then any
caller-supplied extra parameters in the order given». -/
def getAuthURLQueryParams (clientId redirectURI : String)
    (p : AuthURLParams) : List (String × String) :=
  [("response_type", "code"), ("client_id", clientId), ("redirect_uri", redirectURI)]
  ++ (match p.state with | none => [] | some s => [("state", s)])
  ++ (match p.scope with
      | none => []
      | some sc => [("scope", String.intercalate " " sc)])
  ++ (match p.codeChallenge with
      | none => []
      | some (c, m) => [("code_challenge", c), ("code_challenge_method", m)])
  ++ (match p.lang with | none => [] | some l => [("lang", l)])
  ++ p.extrasParams

/-- Modelled from the spec: `getAuthURL` (§4.3) — the authorization
endpoint followed by `?` and the serialised query. -/
def getAuthURL (authorizationEndpoint clientId redirectURI : String)
    (p : AuthURLParams) : String :=
  authorizationEndpoint ++ "?" ++ serializeQuery (getAuthURLQueryParams clientId redirectURI p)

/-- The authorization URL exactly as the spec's §4.3 sentence spells it,
for comparison with `getAuthURL`:
`response_type=code&client_id=<id>&redirect_uri=<urlencoded>` followed,
only if present, by `&state=`, `&scope=<space-joined-urlencoded>`,
`&code_challenge=` + `&code_challenge_method=`, `&lang=`, then any
caller-supplied extra parameters in the order given. -/
def specAuthorizationURL (authorizationEndpoint clientId redirectURI : String)
    (p : AuthURLParams) : String :=
  authorizationEndpoint ++ "?response_type=code&client_id=" ++ formEncode clientId
    ++ "&redirect_uri=" ++ formEncode redirectURI
    ++ (match p.state with | none => "" | some s => "&state=" ++ formEncode s)
    ++ (match p.scope with
        | none => ""
        | some sc => "&scope=" ++ formEncode (String.intercalate " " sc))
    ++ (match p.codeChallenge with
        | none => ""
        | some (c, m) =>
          "&code_challenge=" ++ formEncode c ++ "&code_challenge_method=" ++ formEncode m)
    ++ (match p.lang with | none => "" | some l => "&lang=" ++ formEncode l)
    ++ serializeQueryTail p.extrasParams

/-- A user profile as returned by the userinfo endpoint, keyed by its
subject id (`sub`); further profile claims are provider-defined and
irrelevant to the control flow, so only `sub` is modelled. -/
structure FiefUserInfo where
  sub : String
deriving DecidableEq, Repr

/-- The `FiefAuthState` of `src/react` storage: current userinfo and
current access-token info, both nullable. -/
structure FiefAuthState where
  userinfo : Option FiefUserInfo
  accessTokenInfo : Option FiefAccessTokenInfo
deriving DecidableEq, Repr

/-- A runtime action dispatched to the auth storage reducer.  The four
declared action types carry their payloads; `unknown` stands for any
other runtime value of the `type` discriminant, which the reducer's
`default` branch turns into a thrown error. -/
inductive AuthReducerAction where
  | setUserinfo (value : FiefUserInfo)
  | clearUserinfo
  | setAccessTokenInfo (value : FiefAccessTokenInfo)
  | clearAccessTokenInfo
  | unknown (type : String)
deriving DecidableEq, Repr

/-- The auth storage `reducer` of `src/react` (switch on `action.type`;
spreads the previous state and overwrites one field; the `default`
branch throws, modelled as `none`). -/
def reducer (state : FiefAuthState) (action : AuthReducerAction) :
    Option FiefAuthState :=
  match action with
  | .setUserinfo v => some { state with userinfo := some v }
  | .clearUserinfo => some { state with userinfo := none }
  | .setAccessTokenInfo v => some { state with accessTokenInfo := some v }
  | .clearAccessTokenInfo => some { state with accessTokenInfo := none }
  | .unknown _ => none

/-- The result of a request authentication: user profile and
access-token info, both nullable. -/
structure AuthenticateRequestResult where
  user : Option FiefUserInfo
  accessTokenInfo : Option FiefAccessTokenInfo
deriving DecidableEq, Repr

/-- Errors raised by the request authenticator, as caught by the Next.js
adapter: `FiefAuthUnauthorized`, `FiefAuthForbidden`, or any other
thrown error. -/
inductive AuthError where
  | unauthorized
  | forbidden
  | other
deriving DecidableEq, Repr

/-- Optional policy parameters of `authenticate`
(`AuthenticateRequestParameters`). -/
structure AuthenticateRequestParameters where
  optional : Bool := false
  scope : Option (List String) := none
  acr : Option FiefACR := none
  permissions : Option (List String) := none
deriving DecidableEq, Repr

/-- Modelled from the spec: the Request Authenticator's `authenticate`
(§4.4) — the server-side `FiefAuth.authenticate` is not among the
provided sources (only the Next.js adapter calling it is).  «Extract a
candidate token via the strategy; if none and `optional` is false, fail
unauthorized; if none and `optional` is true, return a result with both
fields null»; then validate via `validateAccessToken`:
«signature/expiry failures become unauthorized; scope/ACR/permission
failures become forbidden»; finally resolve the user profile by subject
id (cache first, provider on miss) and return `{user, accessTokenInfo}`. -/
def authenticate (extractedToken : Option FiefAccessToken) (now : Int)
    (params : AuthenticateRequestParameters)
    (cache : String → Option FiefUserInfo)
    (fetchUserInfo : String → FiefUserInfo) :
    Except AuthError AuthenticateRequestResult :=
  match extractedToken with
  | none =>
    if params.optional then .ok { user := none, accessTokenInfo := none }
    else .error .unauthorized
  | some token =>
    match validateAccessToken token now params.scope params.acr params.permissions with
    | .error .invalid => .error .unauthorized
    | .error .expired => .error .unauthorized
    | .error .missingScope => .error .forbidden
    | .error .acrTooLow => .error .forbidden
    | .error .missingPermission => .error .forbidden
    | .ok info =>
      let user := match cache info.id with
        | some u => u
        | none => fetchUserInfo info.id
      .ok { user := some user, accessTokenInfo := some info }

/-- The inner `getServerSideProps` result wrapped by `withAuth`: either
a props object or a non-props result (redirect / notFound), which is
passed through unchanged. -/
inductive InnerPropsResult (P : Type) where
  | props (value : P)
  | nonProps
deriving DecidableEq, Repr

/-- The result of the `withAuth`-wrapped `getServerSideProps`: a
redirect to the authorization URL, merged props extended with
`accessTokenInfo`, `user` and `forbidden`, or the inner non-props
result passed through. -/
inductive WithAuthResult (P : Type) where
  | redirect (destination : String) (permanent : Bool)
  | props (inner : P) (accessTokenInfo : Option FiefAccessTokenInfo)
      (user : Option FiefUserInfo) (forbidden : Bool)
  | nonProps
deriving DecidableEq, Repr

/-- The Next.js `FiefAuth.withAuth` wrapper of `src/nextjs`, with the
outcome of the `authenticate` call and of the wrapped
`getServerSideProps` as inputs: `user`/`accessTokenInfo` start null;
on success they are filled from the result; `FiefAuthUnauthorized`
returns a non-permanent redirect to the auth URL; `FiefAuthForbidden`
sets `forbidden`; any other error is swallowed; then the inner result's
props are extended with `accessTokenInfo`, `user` and `forbidden`. -/
def withAuthHandler {P : Type} (authOutcome : Except AuthError AuthenticateRequestResult)
    (authURL : String) (innerResult : InnerPropsResult P) : WithAuthResult P :=
  match authOutcome with
  | .error .unauthorized => .redirect authURL false
  | .error .forbidden =>
    match innerResult with
    | .props p => .props p none none true
    | .nonProps => .nonProps
  | .error .other =>
    match innerResult with
    | .props p => .props p none none false
    | .nonProps => .nonProps
  | .ok result =>
    match innerResult with
    | .props p => .props p result.accessTokenInfo result.user false
    | .nonProps => .nonProps

/-- The outcome of a call to a route wrapped by
`FiefAuth.authenticated`: the unauthorized response, the forbidden
response, or the wrapped route handler invoked with `req.user` and
`req.accessTokenInfo` set. -/
inductive ApiRouteOutcome where
  | unauthorizedResponse
  | forbiddenResponse
  | routeCalled (user : Option FiefUserInfo)
      (accessTokenInfo : Option FiefAccessTokenInfo)
deriving DecidableEq, Repr

/-- The Next.js `FiefAuth.authenticated` wrapper of `src/nextjs`, with
the outcome of the `authenticate` call as input: `user` and
`accessTokenInfo` start null; on success they are filled from the
result; `FiefAuthUnauthorized` returns the unauthorized response and
`FiefAuthForbidden` the forbidden response, without calling the route;
any other error is swallowed, after which the route is invoked with the
(still null) `user` and `accessTokenInfo` on the request. -/
def authenticatedHandler (authOutcome : Except AuthError AuthenticateRequestResult) :
    ApiRouteOutcome :=
  match authOutcome with
  | .error .unauthorized => .unauthorizedResponse
  | .error .forbidden => .forbiddenResponse
  | .error .other => .routeCalled none none
  | .ok result => .routeCalled result.user result.accessTokenInfo

/-! ## Shared lemmas -/

/-- The modelled digest is injective, so a binding claim computed from
one string never matches another string's digest. -/
theorem getValidationHash_inj {a b : String}
    (h : getValidationHash a = getValidationHash b) : a = b := by
  have hd := congrArg String.data h
  simp only [getValidationHash, String.data_append] at hd
  exact String.ext (by simpa using hd)

/-- Serialisation of a query tail distributes over list append. -/
theorem serializeQueryTail_append (l1 l2 : List (String × String)) :
    serializeQueryTail (l1 ++ l2)
      = serializeQueryTail l1 ++ serializeQueryTail l2 := by
  induction l1 with
  | nil => simp [serializeQueryTail]
  | cons kv rest ih => simp [serializeQueryTail, ih, String.append_assoc]

/-- Form-encoding leaves the literal `code` unchanged. -/
theorem formEncode_code : formEncode "code" = "code" := rfl

/-! ## Claims -/

/-- **C1** — For every ID token that is an encryption envelope,
validating it on a client with no configured decryption key fails with
the IdTokenInvalid error kind (`authCallback` rejects the token
response), regardless of whether the inner signature would have
verified; it is never silently accepted. -/
theorem authCallback_encrypted_without_key_rejected
    (code accessToken : String) (expiresIn : Int) (k : Nat)
    (inner : SignedIdToken) (issuer : String) (now : Int) :
    authCallback code ⟨accessToken, .encrypted k inner, expiresIn⟩ none issuer now
      = .error .idTokenInvalid := rfl

/-- **C2** — For every ID token carrying an `at_hash` or `c_hash` claim,
validation succeeds when the claim equals the hash-and-truncate digest
of the true access token / authorization code, and fails with
IdTokenInvalid whenever the claim was computed from any other string;
absence of the claim is never an error. -/
theorem authCallback_hash_binding
    (code accessToken sub issuer : String) (exp now : Int)
    (hexp : now < exp) :
    (authCallback code
        ⟨accessToken, .signed ⟨true, true,
          ⟨sub, issuer, exp, some (getValidationHash accessToken),
            some (getValidationHash code)⟩⟩, 3600⟩ none issuer now
      = .ok (⟨accessToken, .signed ⟨true, true,
          ⟨sub, issuer, exp, some (getValidationHash accessToken),
            some (getValidationHash code)⟩⟩, 3600⟩,
          ⟨sub, issuer, exp, some (getValidationHash accessToken),
            some (getValidationHash code)⟩))
    ∧ (∀ x : String, x ≠ accessToken →
        authCallback code
          ⟨accessToken, .signed ⟨true, true,
            ⟨sub, issuer, exp, some (getValidationHash x),
              some (getValidationHash code)⟩⟩, 3600⟩ none issuer now
          = .error .idTokenInvalid)
    ∧ (∀ y : String, y ≠ code →
        authCallback code
          ⟨accessToken, .signed ⟨true, true,
            ⟨sub, issuer, exp, some (getValidationHash accessToken),
              some (getValidationHash y)⟩⟩, 3600⟩ none issuer now
          = .error .idTokenInvalid)
    ∧ (authCallback code
        ⟨accessToken, .signed ⟨true, true, ⟨sub, issuer, exp, none, none⟩⟩, 3600⟩
        none issuer now
      = .ok (⟨accessToken, .signed ⟨true, true, ⟨sub, issuer, exp, none, none⟩⟩, 3600⟩,
          ⟨sub, issuer, exp, none, none⟩)) := by
  have hnl : ¬ (exp ≤ now) := by omega
  refine ⟨?_, ?_, ?_, ?_⟩
  · simp [authCallback, verifyIdToken, decryptIdToken, checkHashBinding, hnl]
  · intro x hx
    have hne : getValidationHash x ≠ getValidationHash accessToken :=
      fun hc => hx (getValidationHash_inj hc)
    simp [authCallback, verifyIdToken, decryptIdToken, checkHashBinding, hnl, hne]
  · intro y hy
    have hne : getValidationHash y ≠ getValidationHash code :=
      fun hc => hy (getValidationHash_inj hc)
    simp [authCallback, verifyIdToken, decryptIdToken, checkHashBinding, hnl, hne]
  · simp [authCallback, verifyIdToken, decryptIdToken, checkHashBinding, hnl]

/-- Witness for **C2** at concrete inputs: the true digests validate,
digests of `INVALID_ACCESS_TOKEN` / `INVALID_CODE` are rejected, and a
token without binding claims validates. -/
theorem authCallback_hash_binding_witness :
    (authCallback "CODE"
        ⟨"ACCESS_TOKEN", .signed ⟨true, true,
          ⟨"USER", "ISSUER", 100, some (getValidationHash "ACCESS_TOKEN"),
            some (getValidationHash "CODE")⟩⟩, 3600⟩ none "ISSUER" 0
      = .ok (⟨"ACCESS_TOKEN", .signed ⟨true, true,
          ⟨"USER", "ISSUER", 100, some (getValidationHash "ACCESS_TOKEN"),
            some (getValidationHash "CODE")⟩⟩, 3600⟩,
          ⟨"USER", "ISSUER", 100, some (getValidationHash "ACCESS_TOKEN"),
            some (getValidationHash "CODE")⟩))
    ∧ (authCallback "CODE"
        ⟨"ACCESS_TOKEN", .signed ⟨true, true,
          ⟨"USER", "ISSUER", 100, some (getValidationHash "INVALID_ACCESS_TOKEN"),
            some (getValidationHash "CODE")⟩⟩, 3600⟩ none "ISSUER" 0
      = .error .idTokenInvalid)
    ∧ (authCallback "CODE"
        ⟨"ACCESS_TOKEN", .signed ⟨true, true,
          ⟨"USER", "ISSUER", 100, some (getValidationHash "ACCESS_TOKEN"),
            some (getValidationHash "INVALID_CODE")⟩⟩, 3600⟩ none "ISSUER" 0
      = .error .idTokenInvalid)
    ∧ (authCallback "CODE"
        ⟨"ACCESS_TOKEN", .signed ⟨true, true, ⟨"USER", "ISSUER", 100, none, none⟩⟩, 3600⟩
        none "ISSUER" 0
      = .ok (⟨"ACCESS_TOKEN", .signed ⟨true, true,
          ⟨"USER", "ISSUER", 100, none, none⟩⟩, 3600⟩,
          ⟨"USER", "ISSUER", 100, none, none⟩)) := by
  have h := authCallback_hash_binding "CODE" "ACCESS_TOKEN" "USER" "ISSUER" 100 0 (by decide)
  exact ⟨h.1, h.2.1 "INVALID_ACCESS_TOKEN" (by decide),
    h.2.2.1 "INVALID_CODE" (by decide), h.2.2.2⟩

/-- **C3** — For every access token that is structurally valid and
correctly signed but whose expiry is equal to or before the current
time, `validateAccessToken` fails with the AccessTokenExpired error kind
and never with AccessTokenInvalid (the two kinds are distinct). -/
theorem validateAccessToken_expired
    (token : FiefAccessToken) (now : Int)
    (h1 : token.wellFormed = true) (h2 : token.signatureValid = true)
    (h3 : token.claims.exp ≤ now)
    (rs : Option (List String)) (ra : Option FiefACR) (rp : Option (List String)) :
    validateAccessToken token now rs ra rp = .error .expired
    ∧ validateAccessToken token now rs ra rp ≠ .error .invalid := by
  have he : validateAccessToken token now rs ra rp = .error .expired := by
    simp [validateAccessToken, h1, h2, h3]
  exact ⟨he, by simp [he]⟩

/-- Witness for **C3**: a well-formed, correctly signed token with
expiry equal to the current time is rejected as expired, not as
invalid. -/
theorem validateAccessToken_expired_witness :
    validateAccessToken ⟨true, true, ⟨"USER", "openid", .LEVEL_ZERO, [], 0⟩⟩ 0
        none none none = .error .expired
    ∧ validateAccessToken ⟨true, true, ⟨"USER", "openid", .LEVEL_ZERO, [], 0⟩⟩ 0
        none none none ≠ .error .invalid :=
  validateAccessToken_expired ⟨true, true, ⟨"USER", "openid", .LEVEL_ZERO, [], 0⟩⟩ 0
    rfl rfl (by decide) none none none

/-- **C4** — For every valid, unexpired access token and every
requiredScope list: if every entry of requiredScope is present in the
token's scope, `validateAccessToken` succeeds and the returned
AccessTokenInfo.scope lists the token's scopes in the token's declared
order (not the requirement's order); if some required entry is absent,
it fails with the AccessTokenMissingScope error kind. -/
theorem validateAccessToken_scope
    (token : FiefAccessToken) (now : Int) (requiredScope : List String)
    (h1 : token.wellFormed = true) (h2 : token.signatureValid = true)
    (h3 : now < token.claims.exp) :
    (requiredScope.all (fun s => (scopeList token.claims.scope).contains s) = true →
      validateAccessToken token now (some requiredScope) none none
        = .ok { id := token.claims.sub, scope := scopeList token.claims.scope,
                acr := token.claims.acr, permissions := token.claims.permissions,
                access_token := token })
    ∧ (requiredScope.all (fun s => (scopeList token.claims.scope).contains s) = false →
      validateAccessToken token now (some requiredScope) none none
        = .error .missingScope) := by
  have hnl : ¬ (token.claims.exp ≤ now) := by omega
  constructor <;> intro hall <;>
    simp [validateAccessToken, h1, h2, hnl, acrSatisfies] <;>
    simpa using hall

/-- Witness for **C4**: a token with scope `openid offline_access`
succeeds on requirement `[openid, offline_access]` with the scopes in
the token's declared order, and fails on requirement `[REQUIRED]` with
AccessTokenMissingScope. -/
theorem validateAccessToken_scope_witness :
    validateAccessToken ⟨true, true,
        ⟨"USER", "openid offline_access", .LEVEL_ZERO, [], 100⟩⟩ 0
        (some ["openid", "offline_access"]) none none
      = .ok { id := "USER", scope := ["openid", "offline_access"],
              acr := .LEVEL_ZERO, permissions := [],
              access_token := ⟨true, true,
                ⟨"USER", "openid offline_access", .LEVEL_ZERO, [], 100⟩⟩ }
    ∧ validateAccessToken ⟨true, true,
        ⟨"USER", "openid offline_access", .LEVEL_ZERO, [], 100⟩⟩ 0
        (some ["REQUIRED"]) none none = .error .missingScope :=
  ⟨(validateAccessToken_scope ⟨true, true,
      ⟨"USER", "openid offline_access", .LEVEL_ZERO, [], 100⟩⟩ 0
      ["openid", "offline_access"] rfl rfl (by decide)).1 (by decide),
   (validateAccessToken_scope ⟨true, true,
      ⟨"USER", "openid offline_access", .LEVEL_ZERO, [], 100⟩⟩ 0
      ["REQUIRED"] rfl rfl (by decide)).2 (by decide)⟩

/-- **C5** — For every valid, unexpired token and every required ACR
level, the ACR requirement is satisfied if and only if the token's level
is greater than or equal to the required level under the total order
LEVEL_ZERO < LEVEL_ONE < LEVEL_TWO; a token at LEVEL_ONE satisfies
requirements LEVEL_ZERO and LEVEL_ONE but `validateAccessToken` fails
with AccessTokenACRTooLow for requirement LEVEL_TWO. -/
theorem validateAccessToken_acr
    (token : FiefAccessToken) (now : Int) (req : FiefACR)
    (h1 : token.wellFormed = true) (h2 : token.signatureValid = true)
    (h3 : now < token.claims.exp) :
    (acrSatisfies token.claims.acr req = true
      ↔ acrLevel req ≤ acrLevel token.claims.acr)
    ∧ (acrLevel .LEVEL_ZERO < acrLevel .LEVEL_ONE
        ∧ acrLevel .LEVEL_ONE < acrLevel .LEVEL_TWO)
    ∧ (acrSatisfies .LEVEL_ONE .LEVEL_ZERO = true
        ∧ acrSatisfies .LEVEL_ONE .LEVEL_ONE = true
        ∧ acrSatisfies .LEVEL_ONE .LEVEL_TWO = false)
    ∧ (acrSatisfies token.claims.acr req = true →
        validateAccessToken token now none (some req) none
          = .ok { id := token.claims.sub, scope := scopeList token.claims.scope,
                  acr := token.claims.acr, permissions := token.claims.permissions,
                  access_token := token })
    ∧ (acrSatisfies token.claims.acr req = false →
        validateAccessToken token now none (some req) none
          = .error .acrTooLow) := by
  have hnl : ¬ (token.claims.exp ≤ now) := by omega
  refine ⟨by simp [acrSatisfies], by decide, by decide, ?_, ?_⟩ <;> intro hacr <;>
    simp [validateAccessToken, h1, h2, hnl, hacr]

/-- Witness for **C5**: a LEVEL_ONE token passes requirements LEVEL_ZERO
and LEVEL_ONE and fails LEVEL_TWO with AccessTokenACRTooLow. -/
theorem validateAccessToken_acr_witness :
    validateAccessToken ⟨true, true, ⟨"USER", "openid", .LEVEL_ONE, [], 100⟩⟩ 0
        none (some .LEVEL_ZERO) none
      = .ok { id := "USER", scope := ["openid"], acr := .LEVEL_ONE,
              permissions := [],
              access_token := ⟨true, true, ⟨"USER", "openid", .LEVEL_ONE, [], 100⟩⟩ }
    ∧ validateAccessToken ⟨true, true, ⟨"USER", "openid", .LEVEL_ONE, [], 100⟩⟩ 0
        none (some .LEVEL_ONE) none
      = .ok { id := "USER", scope := ["openid"], acr := .LEVEL_ONE,
              permissions := [],
              access_token := ⟨true, true, ⟨"USER", "openid", .LEVEL_ONE, [], 100⟩⟩ }
    ∧ validateAccessToken ⟨true, true, ⟨"USER", "openid", .LEVEL_ONE, [], 100⟩⟩ 0
        none (some .LEVEL_TWO) none = .error .acrTooLow :=
  ⟨(validateAccessToken_acr ⟨true, true, ⟨"USER", "openid", .LEVEL_ONE, [], 100⟩⟩ 0
      .LEVEL_ZERO rfl rfl (by decide)).2.2.2.1 (by decide),
   (validateAccessToken_acr ⟨true, true, ⟨"USER", "openid", .LEVEL_ONE, [], 100⟩⟩ 0
      .LEVEL_ONE rfl rfl (by decide)).2.2.2.1 (by decide),
   (validateAccessToken_acr ⟨true, true, ⟨"USER", "openid", .LEVEL_ONE, [], 100⟩⟩ 0
      .LEVEL_TWO rfl rfl (by decide)).2.2.2.2 (by decide)⟩

/-- **C6** — For every valid, unexpired token and every
requiredPermissions list, `validateAccessToken` succeeds only if every
requested permission is a member of the token's permission set, and
otherwise fails with the AccessTokenMissingPermission error kind; in
particular a token holding only `castles:read` fails a requirement of
`castles:create`. -/
theorem validateAccessToken_permissions
    (token : FiefAccessToken) (now : Int) (requiredPermissions : List String)
    (h1 : token.wellFormed = true) (h2 : token.signatureValid = true)
    (h3 : now < token.claims.exp) :
    (requiredPermissions.all (fun p => token.claims.permissions.contains p) = true →
      validateAccessToken token now none none (some requiredPermissions)
        = .ok { id := token.claims.sub, scope := scopeList token.claims.scope,
                acr := token.claims.acr, permissions := token.claims.permissions,
                access_token := token })
    ∧ (requiredPermissions.all (fun p => token.claims.permissions.contains p) = false →
      validateAccessToken token now none none (some requiredPermissions)
        = .error .missingPermission) := by
  have hnl : ¬ (token.claims.exp ≤ now) := by omega
  constructor <;> intro hall <;>
    simp [validateAccessToken, h1, h2, hnl, acrSatisfies] <;>
    simpa using hall

/-- Witness for **C6**: a token holding only `castles:read` fails a
requirement of `castles:create` with AccessTokenMissingPermission, and a
token holding both permissions succeeds. -/
theorem validateAccessToken_permissions_witness :
    validateAccessToken ⟨true, true,
        ⟨"USER", "openid", .LEVEL_ZERO, ["castles:read"], 100⟩⟩ 0
        none none (some ["castles:create"]) = .error .missingPermission
    ∧ validateAccessToken ⟨true, true,
        ⟨"USER", "openid", .LEVEL_ZERO, ["castles:read", "castles:create"], 100⟩⟩ 0
        none none (some ["castles:create"])
      = .ok { id := "USER", scope := ["openid"], acr := .LEVEL_ZERO,
              permissions := ["castles:read", "castles:create"],
              access_token := ⟨true, true,
                ⟨"USER", "openid", .LEVEL_ZERO, ["castles:read", "castles:create"], 100⟩⟩ } :=
  ⟨(validateAccessToken_permissions ⟨true, true,
      ⟨"USER", "openid", .LEVEL_ZERO, ["castles:read"], 100⟩⟩ 0
      ["castles:create"] rfl rfl (by decide)).2 (by decide),
   (validateAccessToken_permissions ⟨true, true,
      ⟨"USER", "openid", .LEVEL_ZERO, ["castles:read", "castles:create"], 100⟩⟩ 0
      ["castles:create"] rfl rfl (by decide)).1 (by decide)⟩

/-- **C7** — For every authenticate call on the Request Authenticator:
when the extraction strategy yields no token and `optional` is false
the result is the Unauthorized failure; when it yields no token and
`optional` is true the result has both `user` and `accessTokenInfo`
null; and on the forbidden path (valid token, policy unmet) the result
never contains a populated user — the authenticator fails with
Forbidden, and `withAuth` translates that into props with a null user. -/
theorem authenticate_request_states :
    (∀ (now : Int) (scope : Option (List String)) (acr : Option FiefACR)
        (permissions : Option (List String))
        (cache : String → Option FiefUserInfo) (fetch : String → FiefUserInfo),
      authenticate none now ⟨false, scope, acr, permissions⟩ cache fetch
        = .error .unauthorized)
    ∧ (∀ (now : Int) (scope : Option (List String)) (acr : Option FiefACR)
        (permissions : Option (List String))
        (cache : String → Option FiefUserInfo) (fetch : String → FiefUserInfo),
      authenticate none now ⟨true, scope, acr, permissions⟩ cache fetch
        = .ok ⟨none, none⟩)
    ∧ (∀ (token : FiefAccessToken) (now : Int)
        (params : AuthenticateRequestParameters)
        (cache : String → Option FiefUserInfo) (fetch : String → FiefUserInfo)
        (e : FiefAccessTokenError),
      (e = .missingScope ∨ e = .acrTooLow ∨ e = .missingPermission) →
      validateAccessToken token now params.scope params.acr params.permissions
        = .error e →
      authenticate (some token) now params cache fetch = .error .forbidden)
    ∧ (∀ (P : Type) (url : String) (p : P),
      withAuthHandler (.error .forbidden) url (.props p) = .props p none none true) := by
  refine ⟨fun _ _ _ _ _ _ => rfl, fun _ _ _ _ _ _ => rfl, ?_, fun _ _ _ => rfl⟩
  intro token now params cache fetch e he hv
  rcases he with he | he | he <;> subst he <;> simp [authenticate, hv]

/-- Witness for **C7**: a valid token missing a required scope makes the
authenticator fail with Forbidden. -/
theorem authenticate_request_states_witness :
    authenticate (some ⟨true, true, ⟨"USER", "openid", .LEVEL_ZERO, [], 100⟩⟩) 0
      ⟨false, some ["REQUIRED"], none, none⟩ (fun _ => none) (fun s => ⟨s⟩)
      = .error .forbidden :=
  authenticate_request_states.2.2.1
    ⟨true, true, ⟨"USER", "openid", .LEVEL_ZERO, [], 100⟩⟩ 0
    ⟨false, some ["REQUIRED"], none, none⟩ (fun _ => none) (fun s => ⟨s⟩)
    .missingScope (Or.inl rfl) rfl

set_option maxRecDepth 8192

/-- **C8** — For every combination of optional parameters, the generated
authorization URL is exactly
`response_type=code&client_id=<id>&redirect_uri=<urlencoded>` followed
by each supplied optional field exactly once, URL-encoded, in the fixed
order state, scope (space-joined), code_challenge +
code_challenge_method, lang, then caller-supplied extra parameters in
the order given; absent optional fields are omitted entirely.  Stated as
the refinement of `getAuthURL` by the spec-literal
`specAuthorizationURL`, the key-order equation, the six rows of the
repository's `getAuthURL` test table, and an all-fields combination. -/
theorem getAuthURL_query_construction :
    (∀ (endpoint clientId redirectURI : String) (p : AuthURLParams),
      getAuthURL endpoint clientId redirectURI p
        = specAuthorizationURL endpoint clientId redirectURI p)
    ∧ (∀ (clientId redirectURI : String) (p : AuthURLParams),
      (getAuthURLQueryParams clientId redirectURI p).map Prod.fst
        = ["response_type", "client_id", "redirect_uri"]
          ++ (match p.state with | none => [] | some _ => ["state"])
          ++ (match p.scope with | none => [] | some _ => ["scope"])
          ++ (match p.codeChallenge with
              | none => [] | some _ => ["code_challenge", "code_challenge_method"])
          ++ (match p.lang with | none => [] | some _ => ["lang"])
          ++ p.extrasParams.map Prod.fst)
    ∧ getAuthURL "https://bretagne.fief.dev/authorize" "CLIENT_ID"
        "https://www.bretagne.duchy/callback" {}
      = "https://bretagne.fief.dev/authorize?response_type=code&client_id=CLIENT_ID&redirect_uri=https%3A%2F%2Fwww.bretagne.duchy%2Fcallback"
    ∧ getAuthURL "https://bretagne.fief.dev/authorize" "CLIENT_ID"
        "https://www.bretagne.duchy/callback" { state := some "STATE" }
      = "https://bretagne.fief.dev/authorize?response_type=code&client_id=CLIENT_ID&redirect_uri=https%3A%2F%2Fwww.bretagne.duchy%2Fcallback&state=STATE"
    ∧ getAuthURL "https://bretagne.fief.dev/authorize" "CLIENT_ID"
        "https://www.bretagne.duchy/callback" { scope := some ["SCOPE_1", "SCOPE_2"] }
      = "https://bretagne.fief.dev/authorize?response_type=code&client_id=CLIENT_ID&redirect_uri=https%3A%2F%2Fwww.bretagne.duchy%2Fcallback&scope=SCOPE_1+SCOPE_2"
    ∧ getAuthURL "https://bretagne.fief.dev/authorize" "CLIENT_ID"
        "https://www.bretagne.duchy/callback" { codeChallenge := some ("CODE", "S256") }
      = "https://bretagne.fief.dev/authorize?response_type=code&client_id=CLIENT_ID&redirect_uri=https%3A%2F%2Fwww.bretagne.duchy%2Fcallback&code_challenge=CODE&code_challenge_method=S256"
    ∧ getAuthURL "https://bretagne.fief.dev/authorize" "CLIENT_ID"
        "https://www.bretagne.duchy/callback" { extrasParams := [("foo", "bar")] }
      = "https://bretagne.fief.dev/authorize?response_type=code&client_id=CLIENT_ID&redirect_uri=https%3A%2F%2Fwww.bretagne.duchy%2Fcallback&foo=bar"
    ∧ getAuthURL "https://bretagne.fief.dev/authorize" "CLIENT_ID"
        "https://www.bretagne.duchy/callback" { lang := some "fr-FR" }
      = "https://bretagne.fief.dev/authorize?response_type=code&client_id=CLIENT_ID&redirect_uri=https%3A%2F%2Fwww.bretagne.duchy%2Fcallback&lang=fr-FR"
    ∧ getAuthURL "https://bretagne.fief.dev/authorize" "CLIENT_ID"
        "https://www.bretagne.duchy/callback"
        { state := some "STATE", scope := some ["SCOPE_1", "SCOPE_2"],
          codeChallenge := some ("CODE", "S256"), lang := some "fr-FR",
          extrasParams := [("foo", "bar")] }
      = "https://bretagne.fief.dev/authorize?response_type=code&client_id=CLIENT_ID&redirect_uri=https%3A%2F%2Fwww.bretagne.duchy%2Fcallback&state=STATE&scope=SCOPE_1+SCOPE_2&code_challenge=CODE&code_challenge_method=S256&lang=fr-FR&foo=bar" := by
  refine ⟨?_, ?_, rfl, rfl, rfl, rfl, rfl, rfl, rfl⟩
  · intro endpoint clientId redirectURI p
    obtain ⟨st, sc, cc, lg, ex⟩ := p
    apply String.ext
    cases st <;> cases sc <;> rcases cc with _ | ⟨c, m⟩ <;> cases lg <;>
      simp [getAuthURL, specAuthorizationURL, getAuthURLQueryParams, serializeQuery,
        serializeQueryTail_append, serializeQueryTail, queryChunk, formEncode_code,
        String.data_append, List.append_assoc]
  · intro clientId redirectURI p
    obtain ⟨st, sc, cc, lg, ex⟩ := p
    cases st <;> cases sc <;> rcases cc with _ | ⟨c, m⟩ <;> cases lg <;> rfl

/-- **C9** — For every state of the auth storage reducer, the
setUserinfo and clearUserinfo actions change only the `userinfo` field
and leave `accessTokenInfo` unchanged, and the setAccessTokenInfo and
clearAccessTokenInfo actions change only the `accessTokenInfo` field and
leave `userinfo` unchanged; any other action type makes the reducer
throw. -/
theorem reducer_frame_conditions :
    (∀ (s : FiefAuthState) (v : FiefUserInfo),
      reducer s (.setUserinfo v)
        = some { userinfo := some v, accessTokenInfo := s.accessTokenInfo })
    ∧ (∀ s : FiefAuthState,
      reducer s .clearUserinfo
        = some { userinfo := none, accessTokenInfo := s.accessTokenInfo })
    ∧ (∀ (s : FiefAuthState) (v : FiefAccessTokenInfo),
      reducer s (.setAccessTokenInfo v)
        = some { userinfo := s.userinfo, accessTokenInfo := some v })
    ∧ (∀ s : FiefAuthState,
      reducer s .clearAccessTokenInfo
        = some { userinfo := s.userinfo, accessTokenInfo := none })
    ∧ (∀ (s : FiefAuthState) (t : String), reducer s (.unknown t) = none) :=
  ⟨fun _ _ => rfl, fun _ => rfl, fun _ _ => rfl, fun _ => rfl, fun _ _ => rfl⟩

/-- **C10** — For every route wrapped by the Next.js
`FiefAuth.authenticated` adapter: if authentication throws
FiefAuthUnauthorized (resp. FiefAuthForbidden) the unauthorized
(resp. forbidden) response is returned and the wrapped route handler is
never invoked; any other error thrown by authentication is swallowed
and the route handler is still invoked with `req.user` and
`req.accessTokenInfo` set to null. -/
theorem authenticated_adapter_dispatch :
    (authenticatedHandler (.error .unauthorized) = .unauthorizedResponse)
    ∧ (authenticatedHandler (.error .forbidden) = .forbiddenResponse)
    ∧ (∀ (u : Option FiefUserInfo) (a : Option FiefAccessTokenInfo),
      authenticatedHandler (.error .unauthorized) ≠ .routeCalled u a)
    ∧ (∀ (u : Option FiefUserInfo) (a : Option FiefAccessTokenInfo),
      authenticatedHandler (.error .forbidden) ≠ .routeCalled u a)
    ∧ (authenticatedHandler (.error .other) = .routeCalled none none)
    ∧ (∀ r : AuthenticateRequestResult,
      authenticatedHandler (.ok r) = .routeCalled r.user r.accessTokenInfo) := by
  refine ⟨rfl, rfl, ?_, ?_, rfl, fun _ => rfl⟩ <;>
    intro u a h <;> simp [authenticatedHandler] at h

/-- Witness for **C10** at concrete inputs: the unauthorized outcome is
the unauthorized response and not a route call, the forbidden outcome is
not a route call, and a successful authentication reaches the route with
its result. -/
theorem authenticated_adapter_dispatch_witness :
    authenticatedHandler (.error .unauthorized) = .unauthorizedResponse
    ∧ authenticatedHandler (.error .unauthorized) ≠ .routeCalled none none
    ∧ authenticatedHandler (.error .forbidden) ≠ .routeCalled none none
    ∧ authenticatedHandler (.ok ⟨some ⟨"USER"⟩, none⟩)
      = .routeCalled (some ⟨"USER"⟩) none :=
  ⟨authenticated_adapter_dispatch.1,
   authenticated_adapter_dispatch.2.2.1 none none,
   authenticated_adapter_dispatch.2.2.2.1 none none,
   authenticated_adapter_dispatch.2.2.2.2.2 ⟨some ⟨"USER"⟩, none⟩⟩

end Fief
